import Mathlib

/-!
Shallow embedding of `src/services/lectureEnvironmentManager.ts` (class
`LectureEnvironmentManager`) and the result/status types from
`src/types/environment.ts`.

Modelling conventions:
* The manager's mutable fields (`environment`, `activeProcesses`) together
  with the relevant slice of the filesystem form an explicit state `MState`
  threaded through every operation.
* Outcomes of external interactions (package-manager detection, process
  spawning, readiness probing, exit codes, filesystem write success) are
  supplied by an `Oracle` record; the code's control flow over those
  outcomes is embedded faithfully.
* Every operation additionally returns a trace of external-process effects
  (`List Eff`): which processes were executed/spawned and which kill
  signals were issued, in order.
* JavaScript truthiness of `x || d` on strings/numbers (empty string and 0
  are falsy) is embedded by `jsOrS` / `jsOrNat`.
* `path.resolve` is abstracted to the identity on the configured path;
  `path.join a b` is `a ++ "/" ++ b`.  Concrete text of caught exception
  messages from the JS runtime (parse errors, write errors) is abstracted
  to fixed strings; the code only ever concatenates or re-wraps them.
-/

namespace SlidevEnv

/-- Association-list lookup: first binding of a key (JS object member read). -/
def getKey {α : Type} : List (String × α) → String → Option α
  | [], _ => none
  | (k', v) :: rest, k => if k' = k then some v else getKey rest k

/-- Association-list update: JS object member assignment — replaces the first
binding of the key, or appends a new binding. -/
def setKey {α : Type} : List (String × α) → String → α → List (String × α)
  | [], k, v => [(k, v)]
  | (k', v') :: rest, k, v =>
      if k' = k then (k, v) :: rest else (k', v') :: setKey rest k v

/-- Association-list removal: JS `delete` of an object member — removes the
first binding of the key. -/
def delKey {α : Type} : List (String × α) → String → List (String × α)
  | [], _ => []
  | (k', v') :: rest, k => if k' = k then rest else (k', v') :: delKey rest k

/-- Number of bindings of a key in an association list. -/
def countKey {α : Type} : List (String × α) → String → Nat
  | [], _ => 0
  | (k', _) :: rest, k => (if k' = k then 1 else 0) + countKey rest k

/-- JS `a || b` on an optional string: `a` unless `a` is absent or empty
(falsy), else `b`. -/
def jsOrS (a b : Option String) : Option String :=
  match a with
  | some s => if s = "" then b else some s
  | none => b

/-- JS truthiness filter on an optional string: drops the empty string. -/
def normS : Option String → Option String
  | some s => if s = "" then none else some s
  | none => none

/-- JS `a || d` on an optional number: `a` unless absent or `0` (falsy). -/
def jsOrNat (a : Option Nat) (d : Nat) : Nat :=
  match a with
  | some n => if n = 0 then d else n
  | none => d

/-- JS truthiness of an optional boolean (`undefined` is falsy). -/
def jsTruthyB : Option Bool → Bool
  | some b => b
  | none => false

/-- Removes the first occurrence of a character from a character list
(JS `String.replace` with a single-character pattern and empty replacement). -/
def removeFirstChar : List Char → Char → List Char
  | [], _ => []
  | c :: rest, t => if c = t then rest else c :: removeFirstChar rest t

/-- `s.replace("^", "").replace("~", "")` from `ensurePackageJson`. -/
def stripVersionMarks (s : String) : String :=
  ⟨removeFirstChar (removeFirstChar s.data '^') '~'⟩

/-- `LectureEnvironmentConfig` from `src/types/environment.ts`. -/
structure LectureEnvironmentConfig where
  lecturePath : String
  lectureId : String
  slidevVersion : Option String
  useGlobalSlidev : Option Bool
deriving Repr, DecidableEq

/-- `EnvironmentStatus` from `src/types/environment.ts`. -/
inductive EnvironmentStatus
  | notInitialized
  | initializing
  | ready
  | error
  | installing
deriving Repr, DecidableEq

/-- `EnvironmentInfo` from `src/types/environment.ts` (the `slidesPath`
field is never written by the manager and is omitted). -/
structure EnvironmentInfo where
  status : EnvironmentStatus
  lecturePath : String
  packageJsonPath : String
  nodeModulesPath : String
  slidevVersion : Option String
  error : Option String
deriving Repr, DecidableEq

/-- The shape of a parsed pre-existing `package.json` (`JSON.parse` result,
typed `any` in the source): every field may be missing. -/
structure ParsedManifest where
  name : Option String
  version : Option String
  isPrivate : Option Bool
  scripts : Option (List (String × String))
  dependencies : Option (List (String × String))
  devDependencies : Option (List (String × String))
deriving Repr, DecidableEq

/-- The empty object `{}`. -/
def ParsedManifest.empty : ParsedManifest :=
  { name := none, version := none, isPrivate := none, scripts := none,
    dependencies := none, devDependencies := none }

/-- The complete `package.json` document built by `buildPackageJson`
(`private` is renamed `isPrivate`, a Lean keyword). -/
structure PackageJson where
  name : String
  version : String
  isPrivate : Bool
  scripts : List (String × String)
  dependencies : List (String × String)
  devDependencies : List (String × String)
deriving Repr, DecidableEq

/-- A fully-populated document viewed as a parse result (what a later read
of the written file yields). -/
def toParsed (p : PackageJson) : ParsedManifest :=
  { name := some p.name, version := some p.version,
    isPrivate := some p.isPrivate, scripts := some p.scripts,
    dependencies := some p.dependencies,
    devDependencies := some p.devDependencies }

/-- State of the `package.json` file on disk: readable-and-parseable
document, or an unreadable/unparseable file. -/
inductive PkgFile
  | doc (m : ParsedManifest)
  | bad
deriving Repr, DecidableEq

/-- The slice of the filesystem the manager consults: existence of the
lecture directory, of `slides.md`, of `node_modules`, the `package.json`
file (absent / present), and the `dist` directory (absent, or present with
its immediate contents). -/
structure Disk where
  lectureDirExists : Bool
  slidesMdExists : Bool
  packageJson : Option PkgFile
  nodeModulesExists : Bool
  dist : Option (List String)
deriving Repr, DecidableEq

/-- `ActiveProcess.type` values. -/
inductive ProcKind
  | dev
  | build
deriving Repr, DecidableEq

/-- `ActiveProcess` registry record (the `ChildProcess` handle is reduced
to its pid plus the `killed` flag and the exit code observed when the
record was created). -/
structure ActiveProcess where
  pid : Nat
  type : ProcKind
  lectureId : String
  killed : Bool
  exitCode : Option Int
  startTime : Nat
deriving Repr, DecidableEq

/-- Whole manager state: the `environment` field, the `activeProcesses`
map (association list keyed by `lectureId ++ "-dev"` etc.), and the disk. -/
structure MState where
  environment : EnvironmentInfo
  activeProcesses : List (String × ActiveProcess)
  disk : Disk
deriving Repr, DecidableEq

/-- Outcome of the streaming build (`buildLectureWithOutput`): the process
`close` event with an exit code, an `error` event, or the 5-minute watchdog. -/
inductive StreamOutcome
  | closed (code : Int)
  | procError (msg : String)
  | timedOut
deriving Repr, DecidableEq

/-- Outcomes of all external interactions of one operation call. -/
structure Oracle where
  pmIsPnpm : Bool
  installOk : Bool
  installErrMsg : String
  installStderr : Option String
  writeOk : Bool
  spawnPid : Nat
  now : Nat
  readinessConnected : Bool
  exitAfterWait : Option Int
  devStderr : String
  stdoutLines : List String
  stderrLines : List String
  isWin : Bool
  sigtermThrows : Bool
  buildExecOk : Bool
  buildErrMsg : String
  buildStderr : Option String
  streamOutcome : StreamOutcome
deriving Repr, DecidableEq

/-- External-process effects, in order of occurrence. -/
inductive Eff
  | execInstall (pm : String)
  | execBuild (pm : String)
  | spawnDev (pid : Nat)
  | spawnBuild (pid : Nat)
  | taskkill (pid : Nat)
  | sigterm (pid : Nat)
  | sigkill (pid : Nat)
deriving Repr, DecidableEq

/-- `EnvironmentInitResult`. -/
structure EnvironmentInitResult where
  success : Bool
  environment : EnvironmentInfo
  messages : List String
  errors : List String
deriving Repr, DecidableEq

/-- `InstallResult`. -/
structure InstallResult where
  success : Bool
  installedPackages : List String
  messages : List String
  errors : List String
deriving Repr, DecidableEq

/-- `DevServerConfig`. -/
structure DevServerConfig where
  lecturePath : String
  port : Option Nat
  host : Option String
  openBrowser : Option Bool
  extraArgs : Option (List String)
deriving Repr, DecidableEq

/-- `DevServerResult`. -/
structure DevServerResult where
  success : Bool
  url : Option String
  processId : Option Nat
  messages : List String
  errors : List String
deriving Repr, DecidableEq

/-- `BuildResult`. -/
structure BuildResult where
  success : Bool
  outputPath : Option String
  messages : List String
  errors : List String
deriving Repr, DecidableEq

/-- `createEmptyEnvironment`: the state every manager starts in. -/
def createEmptyEnvironment (cfg : LectureEnvironmentConfig) : EnvironmentInfo :=
  { status := EnvironmentStatus.notInitialized
    lecturePath := cfg.lecturePath
    packageJsonPath := cfg.lecturePath ++ "/package.json"
    nodeModulesPath := cfg.lecturePath ++ "/node_modules"
    slidevVersion := none
    error := none }

/-- `detectPackageManager`: probes for pnpm, falls back to npm. -/
def detectPackageManager (o : Oracle) : String :=
  if o.pmIsPnpm then "pnpm" else "npm"

/-- Read phase of `ensurePackageJson` (manifest existence / parse / existing
`@slidev/core` version lookup): the parsed object (`{}` when the file is
absent or unparseable), the existing version (the truthy value of
`dependencies?.["@slidev/core"] || devDependencies?.["@slidev/core"]`), the
messages, and the errors produced so far. -/
def readManifestInfo (disk : Disk) :
    ParsedManifest × Option String × List String × List String :=
  match disk.packageJson with
  | none => (ParsedManifest.empty, none, [], [])
  | some (PkgFile.doc m) =>
      let ev := normS (jsOrS (getKey (m.dependencies.getD []) "@slidev/core")
                             (getKey (m.devDependencies.getD []) "@slidev/core"))
      let msgs := ["Found existing package.json"] ++
        (match ev with
         | some v => ["Existing slidev version: " ++ v]
         | none => [])
      (m, ev, msgs, [])
  | some PkgFile.bad =>
      (ParsedManifest.empty, none, [],
       ["Failed to parse existing package.json: parse error"])

/-- `this.config.slidevVersion || existingVersion || "^0.49.0"` from
`ensurePackageJson`. -/
def resolvedVersion (cfg : LectureEnvironmentConfig) (disk : Disk) : String :=
  (jsOrS (jsOrS cfg.slidevVersion (readManifestInfo disk).2.1)
         (some "^0.49.0")).getD "^0.49.0"

/-- `buildPackageJson`: the manifest written for a lecture.  The base
structure fixes `name`, `version`, `private` and `scripts`; existing
`dependencies`/`devDependencies` are copied over it; `@slidev/core` is
set in `devDependencies` and `@slidev/client` in `dependencies` at the
resolved version; a `@slidev/theme-default` entry is deleted from
`devDependencies`. -/
def buildPackageJson (cfg : LectureEnvironmentConfig)
    (existing : ParsedManifest) (slidevVersion : String) : PackageJson :=
  { name := "slidev-lecture-" ++ cfg.lectureId
    version := "1.0.0"
    isPrivate := true
    scripts := [("slidev", "slidev"), ("dev", "slidev"),
                ("build", "slidev build"), ("export", "slidev export")]
    dependencies :=
      setKey (existing.dependencies.getD []) "@slidev/client" slidevVersion
    devDependencies :=
      delKey (setKey (existing.devDependencies.getD []) "@slidev/core" slidevVersion)
             "@slidev/theme-default" }

/-- Result record of the private `ensurePackageJson` helper. -/
structure EnsureResult where
  success : Bool
  slidevVersion : Option String
  messages : List String
  errors : List String
deriving Repr, DecidableEq

/-- `ensurePackageJson`: reads any existing manifest (recreating from `{}`
on parse failure), resolves the slidev version, builds the new manifest
via `buildPackageJson` and writes it (`o.writeOk` tells whether the write
throws). -/
def ensurePackageJson (cfg : LectureEnvironmentConfig) (disk : Disk)
    (o : Oracle) : EnsureResult × Disk :=
  let info := readManifestInfo disk
  let existing := info.1
  let msgs := info.2.2.1
  let errs := info.2.2.2
  let slidevVersion := resolvedVersion cfg disk
  let stripped := stripVersionMarks slidevVersion
  let built := buildPackageJson cfg existing slidevVersion
  if o.writeOk then
    ({ success := true
       slidevVersion := some stripped
       messages := msgs ++
         ["Created/updated package.json with slidev@" ++ slidevVersion]
       errors := errs },
     { disk with packageJson := some (PkgFile.doc (toParsed built)) })
  else
    ({ success := false
       slidevVersion := some stripped
       messages := msgs
       errors := errs ++ ["Failed to create package.json: write error"] },
     disk)

/-- `initialize`: checks the lecture directory and `slides.md`, then
creates/updates the manifest; status goes to `ready` on success and to
`error` (with the thrown message recorded) on any failure. -/
def initializeEnv (cfg : LectureEnvironmentConfig) (s : MState) (o : Oracle) :
    EnvironmentInitResult × MState :=
  let msgs0 := ["Initializing environment for lecture: " ++ cfg.lectureId]
  let env1 := { s.environment with status := EnvironmentStatus.initializing }
  if ¬ s.disk.lectureDirExists then
    let m := "Lecture directory does not exist: " ++ env1.lecturePath
    let env2 := { env1 with status := EnvironmentStatus.error, error := some m }
    ({ success := false, environment := env2, messages := msgs0, errors := [m] },
     { s with environment := env2 })
  else if ¬ s.disk.slidesMdExists then
    let m := "slides.md not found in lecture directory: " ++
             (env1.lecturePath ++ "/slides.md")
    let env2 := { env1 with status := EnvironmentStatus.error, error := some m }
    ({ success := false, environment := env2, messages := msgs0, errors := [m] },
     { s with environment := env2 })
  else
    let er := ensurePackageJson cfg s.disk o
    if ¬ er.1.success then
      let m := "Failed to create package.json: " ++
               String.intercalate ", " er.1.errors
      let env2 := { env1 with status := EnvironmentStatus.error, error := some m }
      ({ success := false, environment := env2, messages := msgs0, errors := [m] },
       { s with environment := env2, disk := er.2 })
    else
      let env2 := { env1 with
                      slidevVersion := er.1.slidevVersion
                      status := EnvironmentStatus.ready }
      ({ success := true
         environment := env2
         messages := msgs0 ++ er.1.messages ++
           ["Environment initialized successfully"]
         errors := [] },
       { s with environment := env2, disk := er.2 })

/-- `installDependencies`: requires only that the `package.json` file
exists on disk; sets status to `installing`, runs the package manager
(`runPackageManager`), then `ready` on success / `error` on failure. -/
def installDependencies (s : MState) (o : Oracle) :
    InstallResult × MState × List Eff :=
  let msgs0 := ["Installing dependencies..."]
  let env1 := { s.environment with status := EnvironmentStatus.installing }
  if s.disk.packageJson.isNone then
    let m := "package.json not found. Call initialize() first."
    let env2 := { env1 with status := EnvironmentStatus.error, error := some m }
    ({ success := false, installedPackages := [], messages := msgs0,
       errors := [m] },
     { s with environment := env2 }, [])
  else
    let pm := detectPackageManager o
    let runMsgs := ["Using package manager: " ++ pm,
                    "Running: " ++ pm ++ " install"]
    if o.installOk then
      let subMsgs := runMsgs ++ ["Dependencies installed successfully"]
      let env2 := { env1 with
                      nodeModulesPath := s.environment.lecturePath ++ "/node_modules"
                      status := EnvironmentStatus.ready }
      ({ success := true
         installedPackages := ["@slidev/core", "@slidev/client"]
         messages := msgs0 ++ subMsgs ++ ["Dependencies installed successfully"]
         errors := [] },
       { s with environment := env2 }, [Eff.execInstall pm])
    else
      let subErrs := (match o.installStderr with
                      | some t => ["stderr: " ++ t]
                      | none => []) ++
                     ["Package manager failed: " ++ o.installErrMsg]
      let m := "Installation failed: " ++ String.intercalate ", " subErrs
      let env2 := { env1 with status := EnvironmentStatus.error, error := some m }
      ({ success := false, installedPackages := [], messages := msgs0,
         errors := [m] },
       { s with environment := env2 }, [Eff.execInstall pm])

/-- The registry key used for a lecture's dev-server process. -/
def devKey (cfg : LectureEnvironmentConfig) : String :=
  cfg.lectureId ++ "-dev"

/-- Kill signals issued by `stopDevServer` for one tracked process: nothing
when `killed` is already set; a forceful tree-kill (`taskkill /PID p /F /T`)
on Windows; otherwise `SIGTERM`, followed by `SIGKILL` only when the
`SIGTERM` call itself throws. -/
def killEffects (ap : ActiveProcess) (o : Oracle) : List Eff :=
  if ap.killed then []
  else if o.isWin then [Eff.taskkill ap.pid]
  else if o.sigtermThrows then [Eff.sigterm ap.pid, Eff.sigkill ap.pid]
  else [Eff.sigterm ap.pid]

/-- `stopDevServer`: no tracked process → `false` and no change; tracked
process → issue the platform-appropriate kill attempt, remove the registry
entry unconditionally, return `true`. -/
def stopDevServer (cfg : LectureEnvironmentConfig) (s : MState) (o : Oracle) :
    Bool × MState × List Eff :=
  match getKey s.activeProcesses (devKey cfg) with
  | none => (false, s, [])
  | some ap =>
      (true,
       { s with activeProcesses := delKey s.activeProcesses (devKey cfg) },
       killEffects ap o)

/-- `isDevServerRunning`: a tracked record exists and its process has not
self-reported exit. -/
def isDevServerRunning (cfg : LectureEnvironmentConfig) (s : MState) : Bool :=
  match getKey s.activeProcesses (devKey cfg) with
  | some ap => ap.exitCode.isNone
  | none => false

/-- `getDevServerPid`. -/
def getDevServerPid (cfg : LectureEnvironmentConfig) (s : MState) : Option Nat :=
  (getKey s.activeProcesses (devKey cfg)).map (fun ap => ap.pid)

/-- `waitForServerStart`: abstracts the 500ms-interval, 30s-timeout poll
racing a TCP connect against process exit; `true` exactly when the connect
was observed first. -/
def waitForServerStart (o : Oracle) : Bool :=
  o.readinessConnected

/-- The ordered `slidev` argument list built by `startDevServer`. -/
def devServerArgs (cfg : LectureEnvironmentConfig) (config : DevServerConfig)
    (o : Oracle) (port : Nat) (host : String) : List String :=
  (if o.pmIsPnpm then
     ["--filter", "slidev-lecture-" ++ cfg.lectureId, "run", "dev", "--",
      "--port=" ++ toString port, "--host=" ++ host]
   else
     ["run", "dev", "--", "--port=" ++ toString port, "--host=" ++ host]) ++
  (if jsTruthyB config.openBrowser then [] else ["--no-open"]) ++
  config.extraArgs.getD []

/-- Spawn phase of `startDevServer` (everything after the precondition and
dependency checks): stop any tracked dev server, resolve port/host, spawn,
register, then race readiness.  `msgs`/`effs` accumulate what the earlier
phases already produced. -/
def startDevSpawnPhase (cfg : LectureEnvironmentConfig)
    (config : DevServerConfig) (s : MState) (o : Oracle)
    (msgs : List String) (effs : List Eff) :
    DevServerResult × MState × List Eff :=
  let stopRes := stopDevServer cfg s o
  let s1 := stopRes.2.1
  let port := jsOrNat config.port 3030
  let host := (jsOrS config.host (some "localhost")).getD "localhost"
  let command := detectPackageManager o
  let args := devServerArgs cfg config o port host
  let runMsg := "Running: " ++ command ++ " " ++ String.intercalate " " args
  let ap : ActiveProcess :=
    { pid := o.spawnPid, type := ProcKind.dev, lectureId := cfg.lectureId,
      killed := false, exitCode := none, startTime := o.now }
  let s2 := { s1 with
                activeProcesses := setKey s1.activeProcesses (devKey cfg) ap }
  let effs2 := effs ++ stopRes.2.2 ++ [Eff.spawnDev o.spawnPid]
  let msgs2 := msgs ++ [runMsg] ++ o.stdoutLines
  let url := "http://" ++ host ++ ":" ++ toString port
  let okMsg := "Dev server started at " ++ url ++
               " (PID: " ++ toString o.spawnPid ++ ")"
  if waitForServerStart o then
    ({ success := true, url := some url, processId := some o.spawnPid,
       messages := msgs2 ++ [okMsg], errors := o.stderrLines },
     s2, effs2)
  else
    match o.exitAfterWait with
    | some c =>
        if c ≠ 0 then
          let m := "Dev server exited with code " ++ toString c ++
                   ". stderr: " ++ o.devStderr
          let stopRes2 := stopDevServer cfg s2 o
          ({ success := false, url := none, processId := none,
             messages := msgs2, errors := o.stderrLines ++ [m] },
           stopRes2.2.1, effs2 ++ stopRes2.2.2)
        else
          ({ success := true, url := some url, processId := some o.spawnPid,
             messages := msgs2 ++ [okMsg], errors := o.stderrLines },
           s2, effs2)
    | none =>
        ({ success := true, url := some url, processId := some o.spawnPid,
           messages := msgs2 ++ [okMsg], errors := o.stderrLines },
         s2, effs2)

/-- `startDevServer`: precondition `status = ready` (on violation the catch
block still runs `stopDevServer` as cleanup), transparent dependency
install when `node_modules` is missing, then the spawn phase. -/
def startDevServer (cfg : LectureEnvironmentConfig)
    (config : DevServerConfig) (s : MState) (o : Oracle) :
    DevServerResult × MState × List Eff :=
  let msgs0 := ["Starting dev server for lecture: " ++ cfg.lectureId]
  if s.environment.status ≠ EnvironmentStatus.ready then
    let stopRes := stopDevServer cfg s o
    ({ success := false, url := none, processId := none, messages := msgs0,
       errors := ["Environment not ready. Call initialize() first."] },
     stopRes.2.1, stopRes.2.2)
  else if s.disk.nodeModulesExists then
    startDevSpawnPhase cfg config s o msgs0 []
  else
    let inst := installDependencies s o
    let msgs1 := msgs0 ++ ["node_modules not found, installing dependencies..."]
    if inst.1.success then
      startDevSpawnPhase cfg config inst.2.1 o msgs1 inst.2.2
    else
      let stopRes := stopDevServer cfg inst.2.1 o
      ({ success := false, url := none, processId := none, messages := msgs1,
         errors := ["Failed to install dependencies: " ++
                    String.intercalate ", " inst.1.errors] },
       stopRes.2.1, inst.2.2 ++ stopRes.2.2)

/-- The ordered package-manager argument list for both build variants. -/
def buildArgsFor (cfg : LectureEnvironmentConfig) (o : Oracle) : List String :=
  if o.pmIsPnpm then
    ["--filter", "slidev-lecture-" ++ cfg.lectureId, "run", "build"]
  else
    ["run", "build"]

/-- Execution phase of `buildLecture` (after the precondition and
dependency checks): synchronous build, then the `dist` probe —
`outputPath` and a contents listing when `dist` is non-empty, a warning
message when it is empty or absent, `success = true` in all three cases. -/
def buildExecPhase (cfg : LectureEnvironmentConfig) (s1 : MState) (o : Oracle)
    (msgs1 : List String) (effs1 : List Eff) :
    BuildResult × MState × List Eff :=
  let command := detectPackageManager o
  let args := buildArgsFor cfg o
  let runMsg := "Running: " ++ command ++ " " ++ String.intercalate " " args
  let effs2 := effs1 ++ [Eff.execBuild command]
  if o.buildExecOk then
    let distPath := s1.environment.lecturePath ++ "/dist"
    let distMsgs :=
      match s1.disk.dist with
      | some contents =>
          if contents.length > 0 then
            ["Build output: " ++ distPath,
             "Output files: " ++ String.intercalate ", " contents]
          else
            ["Warning: dist directory is empty"]
      | none => ["Warning: dist directory not found after build"]
    let outPath :=
      match s1.disk.dist with
      | some contents =>
          if contents.length > 0 then some distPath else none
      | none => none
    ({ success := true, outputPath := outPath
       messages := msgs1 ++ [runMsg, "Build completed successfully"] ++
                   distMsgs
       errors := [] },
     s1, effs2)
  else
    let stderrErrs :=
      match o.buildStderr with
      | some t => ["Build stderr: " ++ t]
      | none => []
    ({ success := false, outputPath := none
       messages := msgs1 ++ [runMsg]
       errors := stderrErrs ++ ["Build failed: " ++ o.buildErrMsg] },
     s1, effs2)

/-- `buildLecture` (buffered variant): precondition `status = ready`,
transparent dependency install, then `buildExecPhase`. -/
def buildLecture (cfg : LectureEnvironmentConfig) (s : MState) (o : Oracle) :
    BuildResult × MState × List Eff :=
  let msgs0 := ["Building lecture: " ++ cfg.lectureId]
  if s.environment.status ≠ EnvironmentStatus.ready then
    ({ success := false, outputPath := none, messages := msgs0,
       errors := ["Environment not ready. Call initialize() first."] },
     s, [])
  else if s.disk.nodeModulesExists then
    buildExecPhase cfg s o msgs0 []
  else
    let inst := installDependencies s o
    let msgs1 := msgs0 ++ ["node_modules not found, installing dependencies..."]
    if inst.1.success then
      buildExecPhase cfg inst.2.1 o msgs1 inst.2.2
    else
      ({ success := false, outputPath := none, messages := msgs1
         errors := ["Failed to install dependencies: " ++
                    String.intercalate ", " inst.1.errors] },
       inst.2.1, inst.2.2)

/-- Execution phase of `buildLectureWithOutput` (after the precondition and
dependency checks): spawned build with line-by-line output capture,
resolution on `close`/`error`/watchdog; on exit code 0 the `dist` probe
only sets `outputPath` (no warning, no contents listing). -/
def buildStreamPhase (cfg : LectureEnvironmentConfig) (s1 : MState)
    (o : Oracle) (msgs1 : List String) (effs1 : List Eff) :
    BuildResult × MState × List Eff :=
  let command := detectPackageManager o
  let args := buildArgsFor cfg o
  let runMsg := "Running: " ++ command ++ " " ++
                String.intercalate " " args
  let infoLines := o.stdoutLines.map (fun l => "[info] " ++ l)
  let errLines := o.stderrLines.map (fun l => "[error] " ++ l)
  let effs2 := effs1 ++ [Eff.spawnBuild o.spawnPid]
  let msgs2 := msgs1 ++ [runMsg] ++ infoLines
  match o.streamOutcome with
  | StreamOutcome.closed code =>
      if code = 0 then
        let distPath := s1.environment.lecturePath ++ "/dist"
        let outPath :=
          match s1.disk.dist with
          | some contents =>
              if contents.length > 0 then some distPath else none
          | none => none
        let outMsgs :=
          match s1.disk.dist with
          | some contents =>
              if contents.length > 0 then
                ["Build output: " ++ distPath]
              else []
          | none => []
        ({ success := true, outputPath := outPath
           messages := msgs2 ++ ["Build completed successfully"] ++
                       outMsgs
           errors := errLines },
         s1, effs2)
      else
        ({ success := false, outputPath := none
           messages := msgs2
           errors := errLines ++
             ["Build exited with code " ++ toString code] },
         s1, effs2)
  | StreamOutcome.procError m =>
      ({ success := false, outputPath := none
         messages := msgs2
         errors := errLines ++ ["Process error: " ++ m] },
       s1, effs2)
  | StreamOutcome.timedOut =>
      ({ success := false, outputPath := none
         messages := msgs2
         errors := errLines ++ ["Build timeout (5 minutes)"] },
       s1, effs2 ++ [Eff.sigterm o.spawnPid])

/-- `buildLectureWithOutput` (streaming variant): precondition
`status = ready`, transparent dependency install, then `buildStreamPhase`. -/
def buildLectureWithOutput (cfg : LectureEnvironmentConfig) (s : MState)
    (o : Oracle) : BuildResult × MState × List Eff :=
  let msgs0 := ["Building lecture: " ++ cfg.lectureId]
  if s.environment.status ≠ EnvironmentStatus.ready then
    ({ success := false, outputPath := none, messages := msgs0,
       errors := ["Environment not ready. Call initialize() first."] },
     s, [])
  else if s.disk.nodeModulesExists then
    buildStreamPhase cfg s o msgs0 []
  else
    let inst := installDependencies s o
    let msgs1 := msgs0 ++ ["node_modules not found, installing dependencies..."]
    if inst.1.success then
      buildStreamPhase cfg inst.2.1 o msgs1 inst.2.2
    else
      ({ success := false, outputPath := none, messages := msgs1
         errors := ["Failed to install dependencies: " ++
                    String.intercalate ", " inst.1.errors] },
       inst.2.1, inst.2.2)

/-- `setup`: `initialize()` then, only when it succeeded,
`installDependencies()`; an install failure is reported with the
initialize messages and the install errors. -/
def setup (cfg : LectureEnvironmentConfig) (s : MState) (o : Oracle) :
    EnvironmentInitResult × MState × List Eff :=
  let init := initializeEnv cfg s o
  if ¬ init.1.success then
    (init.1, init.2, [])
  else
    let inst := installDependencies init.2 o
    if ¬ inst.1.success then
      ({ success := false, environment := inst.2.1.environment,
         messages := init.1.messages, errors := inst.1.errors },
       inst.2.1, inst.2.2)
    else
      ({ success := true, environment := inst.2.1.environment,
         messages := init.1.messages ++ inst.1.messages, errors := [] },
       inst.2.1, inst.2.2)

/-- `dependencies` of the manifest document currently on disk. -/
def manifestDeps (d : Disk) : List (String × String) :=
  match d.packageJson with
  | some (PkgFile.doc m) => m.dependencies.getD []
  | _ => []

/-- `devDependencies` of the manifest document currently on disk. -/
def manifestDevDeps (d : Disk) : List (String × String) :=
  match d.packageJson with
  | some (PkgFile.doc m) => m.devDependencies.getD []
  | _ => []

/-! ### Concrete fixtures used by witnesses and counterexamples -/

/-- A sample manager configuration. -/
def cfg0 : LectureEnvironmentConfig :=
  { lecturePath := "/lec/l1", lectureId := "l1",
    slidevVersion := none, useGlobalSlidev := none }

/-- An all-success oracle: npm detected, installs and builds succeed,
manifest writes succeed, readiness probe connects, non-Windows. -/
def o0 : Oracle :=
  { pmIsPnpm := false, installOk := true, installErrMsg := "E",
    installStderr := none, writeOk := true, spawnPid := 101, now := 5,
    readinessConnected := true, exitAfterWait := none, devStderr := "",
    stdoutLines := [], stderrLines := [], isWin := false,
    sigtermThrows := false, buildExecOk := true, buildErrMsg := "B",
    buildStderr := none, streamOutcome := StreamOutcome.closed 0 }

/-- Disk of a lecture directory before any `initialize()`: directory and
`slides.md` present, no manifest, no `node_modules`, no `dist`. -/
def diskFresh : Disk :=
  { lectureDirExists := true, slidesMdExists := true, packageJson := none,
    nodeModulesExists := false, dist := none }

/-- A freshly constructed manager over `diskFresh`. -/
def stFresh : MState :=
  { environment := createEmptyEnvironment cfg0, activeProcesses := [],
    disk := diskFresh }

/-- A ready manager: status `ready`, manifest and `node_modules` present. -/
def stReady : MState :=
  { environment := { createEmptyEnvironment cfg0 with
                       status := EnvironmentStatus.ready },
    activeProcesses := []
    disk := { diskFresh with
                nodeModulesExists := true
                packageJson := some (PkgFile.doc ParsedManifest.empty) } }

/-- A dev-server configuration with everything left unspecified. -/
def devCfg0 : DevServerConfig :=
  { lecturePath := "/lec/l1", port := none, host := none,
    openBrowser := none, extraArgs := none }

/-! ### Association-list lemmas -/

theorem getKey_setKey_self {α : Type} (l : List (String × α)) (k : String)
    (v : α) : getKey (setKey l k v) k = some v := by
  induction l with
  | nil => simp [setKey, getKey]
  | cons p rest ih =>
      obtain ⟨k', v'⟩ := p
      by_cases h : k' = k
      · simp [setKey, h, getKey]
      · simp [setKey, h, getKey, ih]

theorem getKey_setKey_ne {α : Type} (l : List (String × α)) (k k2 : String)
    (v : α) (h : k2 ≠ k) : getKey (setKey l k v) k2 = getKey l k2 := by
  induction l with
  | nil => simp [setKey, getKey, Ne.symm h]
  | cons p rest ih =>
      obtain ⟨k', v'⟩ := p
      by_cases hk : k' = k
      · subst hk
        simp [setKey, getKey, Ne.symm h]
      · simp only [setKey, if_neg hk, getKey]
        by_cases hk2 : k' = k2
        · simp [hk2]
        · simp [hk2, ih]

theorem getKey_delKey_ne {α : Type} (l : List (String × α)) (k k2 : String)
    (h : k2 ≠ k) : getKey (delKey l k) k2 = getKey l k2 := by
  induction l with
  | nil => simp [delKey]
  | cons p rest ih =>
      obtain ⟨k', v'⟩ := p
      by_cases hk : k' = k
      · subst hk
        simp [delKey, getKey, Ne.symm h]
      · simp only [delKey, if_neg hk, getKey]
        by_cases hk2 : k' = k2
        · simp [hk2]
        · simp [hk2, ih]

theorem getKey_eq_none_of_not_mem {α : Type} (l : List (String × α))
    (k : String) (h : k ∉ l.map Prod.fst) : getKey l k = none := by
  induction l with
  | nil => simp [getKey]
  | cons p rest ih =>
      obtain ⟨k', v'⟩ := p
      simp only [List.map, List.mem_cons, not_or] at h
      simp [getKey, Ne.symm h.1, ih h.2]

theorem getKey_delKey_self {α : Type} (l : List (String × α)) (k : String)
    (hnd : (l.map Prod.fst).Nodup) : getKey (delKey l k) k = none := by
  induction l with
  | nil => simp [delKey, getKey]
  | cons p rest ih =>
      obtain ⟨k', v'⟩ := p
      simp only [List.map, List.nodup_cons] at hnd
      by_cases hk : k' = k
      · subst hk
        simpa [delKey] using getKey_eq_none_of_not_mem rest k' hnd.1
      · simp [delKey, hk, getKey, ih hnd.2]

theorem countKey_eq_zero_iff {α : Type} (l : List (String × α)) (k : String) :
    countKey l k = 0 ↔ getKey l k = none := by
  induction l with
  | nil => simp [countKey, getKey]
  | cons p rest ih =>
      obtain ⟨k', v'⟩ := p
      by_cases hk : k' = k
      · simp [countKey, getKey, hk]
      · simp [countKey, getKey, hk, ih]

theorem countKey_setKey_of_zero {α : Type} (l : List (String × α))
    (k : String) (v : α) (h : countKey l k = 0) :
    countKey (setKey l k v) k = 1 := by
  induction l with
  | nil => simp [setKey, countKey]
  | cons p rest ih =>
      obtain ⟨k', v'⟩ := p
      by_cases hk : k' = k
      · simp [countKey, hk] at h
      · simp only [countKey, if_neg hk, zero_add] at h
        simp [setKey, hk, countKey, ih h]

theorem countKey_delKey {α : Type} (l : List (String × α)) (k : String) :
    countKey (delKey l k) k = countKey l k - 1 := by
  induction l with
  | nil => simp [delKey, countKey]
  | cons p rest ih =>
      obtain ⟨k', v'⟩ := p
      by_cases hk : k' = k
      · simp [delKey, hk, countKey]
      · simp [delKey, hk, countKey, ih]

theorem one_le_countKey_of_getKey_some {α : Type} (l : List (String × α))
    (k : String) (a : α) (h : getKey l k = some a) : 1 ≤ countKey l k := by
  by_contra hc
  have h0 : countKey l k = 0 := by omega
  rw [(countKey_eq_zero_iff l k).mp h0] at h
  exact Option.noConfusion h

theorem countKey_setKey_ne {α : Type} (l : List (String × α)) (k k2 : String)
    (v : α) (h : k2 ≠ k) : countKey (setKey l k v) k2 = countKey l k2 := by
  induction l with
  | nil => simp [setKey, countKey, Ne.symm h]
  | cons p rest ih =>
      obtain ⟨k', v'⟩ := p
      by_cases hk : k' = k
      · subst hk
        simp [setKey, countKey, Ne.symm h]
      · simp [setKey, hk, countKey, ih]

theorem countKey_le_one_of_nodup {α : Type} (l : List (String × α))
    (k : String) (h : (l.map Prod.fst).Nodup) : countKey l k ≤ 1 := by
  induction l with
  | nil => simp [countKey]
  | cons p rest ih =>
      obtain ⟨k', v'⟩ := p
      simp only [List.map, List.nodup_cons] at h
      by_cases hk : k' = k
      · subst hk
        have h0 : countKey rest k' = 0 :=
          (countKey_eq_zero_iff _ _).mpr (getKey_eq_none_of_not_mem _ _ h.1)
        simp [countKey, h0]
      · simp [countKey, hk, ih h.2]

theorem getKey_delKey_self_of_count {α : Type} (l : List (String × α))
    (k : String) (h : countKey l k ≤ 1) : getKey (delKey l k) k = none := by
  apply (countKey_eq_zero_iff _ _).mp
  rw [countKey_delKey]
  omega

/-- `stopDevServer` never touches the environment record or the disk. -/
theorem stopDevServer_env_disk (cfg : LectureEnvironmentConfig) (s : MState)
    (o : Oracle) :
    (stopDevServer cfg s o).2.1.environment = s.environment ∧
    (stopDevServer cfg s o).2.1.disk = s.disk := by
  cases h : getKey s.activeProcesses (devKey cfg) <;> simp [stopDevServer, h]

/-- After `stopDevServer`, the dev key is unbound, provided it was bound at
most once before. -/
theorem countKey_stop_registry (cfg : LectureEnvironmentConfig) (s : MState)
    (o : Oracle) (h : countKey s.activeProcesses (devKey cfg) ≤ 1) :
    countKey (stopDevServer cfg s o).2.1.activeProcesses (devKey cfg) = 0 := by
  cases hg : getKey s.activeProcesses (devKey cfg) with
  | none => simpa [stopDevServer, hg] using (countKey_eq_zero_iff _ _).mpr hg
  | some ap =>
      have h1 := one_le_countKey_of_getKey_some _ _ _ hg
      simp [stopDevServer, hg, countKey_delKey]
      omega

/-! ### Claims -/

/-- Claim C10 (confirmed).  `buildPackageJson` — the manifest `initialize()`
writes — fixes `name`, `version`, `private` and the whole `scripts` block to
generated values, and its output depends on nothing of the prior manifest
beyond its `dependencies` and `devDependencies` maps; custom names or script
entries in the prior manifest are lost. -/
theorem buildPackageJson_fixed_fields (cfg : LectureEnvironmentConfig)
    (existing e2 : ParsedManifest) (v : String)
    (hdep : e2.dependencies = existing.dependencies)
    (hdev : e2.devDependencies = existing.devDependencies) :
    (buildPackageJson cfg existing v).name = "slidev-lecture-" ++ cfg.lectureId ∧
    (buildPackageJson cfg existing v).version = "1.0.0" ∧
    (buildPackageJson cfg existing v).isPrivate = true ∧
    (buildPackageJson cfg existing v).scripts =
      [("slidev", "slidev"), ("dev", "slidev"),
       ("build", "slidev build"), ("export", "slidev export")] ∧
    buildPackageJson cfg e2 v = buildPackageJson cfg existing v := by
  refine ⟨rfl, rfl, rfl, rfl, ?_⟩
  simp [buildPackageJson, hdep, hdev]

/-- A prior manifest with a custom name, custom scripts and one dependency. -/
def m10a : ParsedManifest :=
  { ParsedManifest.empty with
      name := some "custom-name"
      scripts := some [("dev", "custom dev command")]
      dependencies := some [("foo", "1.0.0")] }

/-- The same dependency maps with no custom name/scripts. -/
def m10b : ParsedManifest :=
  { ParsedManifest.empty with dependencies := some [("foo", "1.0.0")] }

/-- Witness for C10: the custom name and scripts of `m10a` leave no trace —
the built manifest coincides with the one built from `m10b`. -/
theorem buildPackageJson_fixed_fields_witness :
    buildPackageJson cfg0 m10a "1.2.3" = buildPackageJson cfg0 m10b "1.2.3" ∧
    (buildPackageJson cfg0 m10b "1.2.3").name = "slidev-lecture-l1" :=
  ⟨(buildPackageJson_fixed_fields cfg0 m10b m10a "1.2.3" rfl rfl).2.2.2.2,
   (buildPackageJson_fixed_fields cfg0 m10b m10a "1.2.3" rfl rfl).1⟩

/-- Claim C9 (confirmed).  `setup()` is `initialize()` followed by
`installDependencies()` only when the former succeeded: an initialize
failure is returned verbatim with no install effects; an install failure
makes `setup` fail carrying exactly the install errors; `setup` succeeds
iff both steps succeed. -/
theorem setup_short_circuit (cfg : LectureEnvironmentConfig) (s : MState)
    (o : Oracle) :
    ((initializeEnv cfg s o).1.success = false →
      setup cfg s o = ((initializeEnv cfg s o).1, (initializeEnv cfg s o).2, [])) ∧
    ((initializeEnv cfg s o).1.success = true →
      (installDependencies (initializeEnv cfg s o).2 o).1.success = false →
      (setup cfg s o).1.success = false ∧
      (setup cfg s o).1.errors =
        (installDependencies (initializeEnv cfg s o).2 o).1.errors) ∧
    ((initializeEnv cfg s o).1.success = true →
      (installDependencies (initializeEnv cfg s o).2 o).1.success = true →
      (setup cfg s o).1.success = true) ∧
    (setup cfg s o).1.success =
      ((initializeEnv cfg s o).1.success &&
       (installDependencies (initializeEnv cfg s o).2 o).1.success) := by
  cases hi : (initializeEnv cfg s o).1.success with
  | false => simp [setup, hi]
  | true =>
      cases hj : (installDependencies (initializeEnv cfg s o).2 o).1.success with
      | false => simp [setup, hi, hj]
      | true => simp [setup, hi, hj]

/-- A lecture directory whose `slides.md` is missing. -/
def stNoSlides : MState :=
  { stFresh with disk := { diskFresh with slidesMdExists := false } }

/-- Witness for C9: on a lecture missing `slides.md`, `initialize()` fails
and `setup()` returns that failure with no install effects. -/
theorem setup_short_circuit_witness :
    (initializeEnv cfg0 stNoSlides o0).1.success = false ∧
    setup cfg0 stNoSlides o0 =
      ((initializeEnv cfg0 stNoSlides o0).1, (initializeEnv cfg0 stNoSlides o0).2, []) :=
  ⟨by decide, (setup_short_circuit cfg0 stNoSlides o0).1 (by decide)⟩

/-- Counterexample to claim C2 as stated: on a fresh (never-initialized)
manager with no manifest, `installDependencies()` does fail, but it does
not leave the status field unchanged — the status goes from
`not_initialized` to `error` (via the unconditional `updateStatus(INSTALLING)`
at entry and `updateStatus(ERROR)` in the catch block). -/
theorem installDependencies_status_counterexample :
    (installDependencies stFresh o0).1.success = false ∧
    stFresh.environment.status = EnvironmentStatus.notInitialized ∧
    (installDependencies stFresh o0).2.1.environment.status =
      EnvironmentStatus.error ∧
    (installDependencies stFresh o0).2.1.environment.status ≠
      stFresh.environment.status := by
  decide

/-- Claim C2 (corrected).  Without a manifest on disk,
`installDependencies()` fails immediately — `success = false`, non-empty
errors, no process spawned, disk and registry untouched — but the status
field is set to `error`, not left unchanged. -/
theorem installDependencies_no_manifest (s : MState) (o : Oracle)
    (h : s.disk.packageJson = none) :
    (installDependencies s o).1.success = false ∧
    (installDependencies s o).1.errors ≠ [] ∧
    (installDependencies s o).2.2 = [] ∧
    (installDependencies s o).2.1.environment.status = EnvironmentStatus.error ∧
    (installDependencies s o).2.1.disk = s.disk ∧
    (installDependencies s o).2.1.activeProcesses = s.activeProcesses := by
  simp [installDependencies, h]

/-- Witness for the corrected C2 at the fresh-manager fixture. -/
theorem installDependencies_no_manifest_witness :
    (installDependencies stFresh o0).1.success = false ∧
    (installDependencies stFresh o0).1.errors ≠ [] ∧
    (installDependencies stFresh o0).2.2 = [] ∧
    (installDependencies stFresh o0).2.1.environment.status =
      EnvironmentStatus.error ∧
    (installDependencies stFresh o0).2.1.disk = stFresh.disk ∧
    (installDependencies stFresh o0).2.1.activeProcesses =
      stFresh.activeProcesses :=
  installDependencies_no_manifest stFresh o0 rfl

/-- A never-initialized manager over a directory that already contains a
`package.json` (not created by this manager). -/
def stFreshWithPkg : MState :=
  { stFresh with
      disk := { diskFresh with
                  packageJson := some (PkgFile.doc ParsedManifest.empty) } }

/-- Counterexample to claim C3 as stated: `installDependencies()` checks only
that the manifest file exists, never the status, so on a never-initialized
manager whose directory already holds a `package.json` it proceeds, spawns
the package manager and (here) succeeds — contradicting "each return
success = false … and neither spawns any external process". -/
theorem neverInitialized_install_counterexample :
    stFreshWithPkg.environment.status = EnvironmentStatus.notInitialized ∧
    (installDependencies stFreshWithPkg o0).1.success = true ∧
    (installDependencies stFreshWithPkg o0).2.2 = [Eff.execInstall "npm"] := by
  decide

/-- Claim C3 (corrected).  On an environment whose status is not `ready`
(in particular one never initialized), `buildLecture()` fails with
non-empty errors and spawns nothing; `installDependencies()` does the same
provided additionally that no manifest file exists at the manifest path. -/
theorem neverInitialized_build_install_fail (cfg : LectureEnvironmentConfig)
    (s : MState) (o : Oracle)
    (hs : s.environment.status ≠ EnvironmentStatus.ready)
    (hp : s.disk.packageJson = none) :
    (buildLecture cfg s o).1.success = false ∧
    (buildLecture cfg s o).1.errors ≠ [] ∧
    (buildLecture cfg s o).2.2 = [] ∧
    (installDependencies s o).1.success = false ∧
    (installDependencies s o).1.errors ≠ [] ∧
    (installDependencies s o).2.2 = [] := by
  refine ⟨?_, ?_, ?_, ?_, ?_, ?_⟩ <;>
    simp [buildLecture, installDependencies, hs, hp]

/-- Witness for the corrected C3 at the fresh-manager fixture. -/
theorem neverInitialized_build_install_fail_witness :
    (buildLecture cfg0 stFresh o0).1.success = false ∧
    (buildLecture cfg0 stFresh o0).1.errors ≠ [] ∧
    (buildLecture cfg0 stFresh o0).2.2 = [] ∧
    (installDependencies stFresh o0).1.success = false ∧
    (installDependencies stFresh o0).1.errors ≠ [] ∧
    (installDependencies stFresh o0).2.2 = [] :=
  neverInitialized_build_install_fail cfg0 stFresh o0 (by decide) rfl

/-- Claim C7 (confirmed).  `stopDevServer()` with no tracked dev-server
process returns `false` and changes nothing.  With a tracked process (whose
`killed` flag is clear, as it is for every process `startDevServer`
registers), it issues the platform-appropriate termination — `taskkill /F /T`
by pid on Windows, otherwise `SIGTERM` with `SIGKILL` only when that call
throws — removes the registry entry unconditionally, returns `true`, and
`isDevServerRunning()` is `false` afterwards. -/
theorem stopDevServer_semantics (cfg : LectureEnvironmentConfig) (s : MState)
    (o : Oracle) (hnd : (s.activeProcesses.map Prod.fst).Nodup) :
    (getKey s.activeProcesses (devKey cfg) = none →
      stopDevServer cfg s o = (false, s, [])) ∧
    (∀ ap, getKey s.activeProcesses (devKey cfg) = some ap →
      ap.killed = false →
      (stopDevServer cfg s o).1 = true ∧
      (stopDevServer cfg s o).2.2 =
        (if o.isWin then [Eff.taskkill ap.pid]
         else if o.sigtermThrows then [Eff.sigterm ap.pid, Eff.sigkill ap.pid]
         else [Eff.sigterm ap.pid]) ∧
      (stopDevServer cfg s o).2.1.activeProcesses =
        delKey s.activeProcesses (devKey cfg) ∧
      (stopDevServer cfg s o).2.1.environment = s.environment ∧
      (stopDevServer cfg s o).2.1.disk = s.disk ∧
      isDevServerRunning cfg (stopDevServer cfg s o).2.1 = false) := by
  constructor
  · intro h
    simp [stopDevServer, h]
  · intro ap h hk
    refine ⟨?_, ?_, ?_, ?_, ?_, ?_⟩ <;>
      simp [stopDevServer, h, killEffects, hk, isDevServerRunning,
            getKey_delKey_self _ _ hnd]

/-- A tracked dev-server process for lecture `l1`. -/
def ap0 : ActiveProcess :=
  { pid := 101, type := ProcKind.dev, lectureId := "l1", killed := false,
    exitCode := none, startTime := 5 }

/-- The ready manager with `ap0` tracked under its dev key. -/
def stWithDev : MState := { stReady with activeProcesses := [("l1-dev", ap0)] }

/-- Witness for C7: the no-entry case on `stReady` and the tracked case on
`stWithDev` (non-Windows, `SIGTERM` succeeding). -/
theorem stopDevServer_semantics_witness :
    stopDevServer cfg0 stReady o0 = (false, stReady, []) ∧
    (stopDevServer cfg0 stWithDev o0).1 = true ∧
    (stopDevServer cfg0 stWithDev o0).2.2 =
      (if o0.isWin then [Eff.taskkill ap0.pid]
       else if o0.sigtermThrows then [Eff.sigterm ap0.pid, Eff.sigkill ap0.pid]
       else [Eff.sigterm ap0.pid]) ∧
    isDevServerRunning cfg0 (stopDevServer cfg0 stWithDev o0).2.1 = false :=
  ⟨(stopDevServer_semantics cfg0 stReady o0 (by decide)).1 rfl,
   ((stopDevServer_semantics cfg0 stWithDev o0 (by decide)).2 ap0 rfl rfl).1,
   ((stopDevServer_semantics cfg0 stWithDev o0 (by decide)).2 ap0 rfl rfl).2.1,
   ((stopDevServer_semantics cfg0 stWithDev o0 (by decide)).2 ap0 rfl rfl).2.2.2.2.2⟩

/-- Claim C8 (confirmed).  When the lecture directory and `slides.md` exist
but the existing manifest is unreadable/unparseable, `initialize()` does not
abort: the manifest is recreated from the default structure (built from the
empty object `{}`) and the call still returns `success = true` with status
`ready`. -/
theorem initialize_recreates_bad_manifest (cfg : LectureEnvironmentConfig)
    (s : MState) (o : Oracle)
    (hdir : s.disk.lectureDirExists = true)
    (hsl : s.disk.slidesMdExists = true)
    (hbad : s.disk.packageJson = some PkgFile.bad)
    (hw : o.writeOk = true) :
    (initializeEnv cfg s o).1.success = true ∧
    (initializeEnv cfg s o).2.environment.status = EnvironmentStatus.ready ∧
    (initializeEnv cfg s o).2.disk.packageJson =
      some (PkgFile.doc (toParsed (buildPackageJson cfg ParsedManifest.empty
        (resolvedVersion cfg s.disk)))) := by
  refine ⟨?_, ?_, ?_⟩ <;>
    simp [initializeEnv, ensurePackageJson, readManifestInfo, hdir, hsl,
          hbad, hw]

/-- A lecture directory whose `package.json` is unparseable. -/
def stBadPkg : MState :=
  { stFresh with disk := { diskFresh with packageJson := some PkgFile.bad } }

/-- Witness for C8 at the unparseable-manifest fixture. -/
theorem initialize_recreates_bad_manifest_witness :
    (initializeEnv cfg0 stBadPkg o0).1.success = true ∧
    (initializeEnv cfg0 stBadPkg o0).2.environment.status =
      EnvironmentStatus.ready ∧
    (initializeEnv cfg0 stBadPkg o0).2.disk.packageJson =
      some (PkgFile.doc (toParsed (buildPackageJson cfg0 ParsedManifest.empty
        (resolvedVersion cfg0 stBadPkg.disk)))) :=
  initialize_recreates_bad_manifest cfg0 stBadPkg o0 rfl rfl rfl rfl

/-- A pre-existing manifest declaring `@slidev/theme-default` among its
`dependencies` (not `devDependencies`). -/
def mTheme : ParsedManifest :=
  { ParsedManifest.empty with
      dependencies := some [("@slidev/theme-default", "1.0.0")] }

/-- The fresh lecture directory holding `mTheme` as its manifest. -/
def stThemeDeps : MState :=
  { stFresh with
      disk := { diskFresh with packageJson := some (PkgFile.doc mTheme) } }

/-- Counterexample to claim C4 as stated: `buildPackageJson` deletes
`@slidev/theme-default` only from `devDependencies`; a pre-existing entry in
`dependencies` survives `initialize()` unchanged, contradicting "any
pre-existing @slidev/theme-default entry is removed". -/
theorem initialize_keeps_theme_in_dependencies :
    (initializeEnv cfg0 stThemeDeps o0).1.success = true ∧
    getKey (manifestDeps (initializeEnv cfg0 stThemeDeps o0).2.disk)
      "@slidev/theme-default" = some "1.0.0" := by
  decide

/-- Claim C4 (corrected).  After a successful `initialize()` over a parseable
pre-existing manifest, the written manifest's `devDependencies` maps
`@slidev/core` to the resolved version (configured, else prior, else
default), `dependencies` maps `@slidev/client` to the same version, every
other pre-existing entry of either map is preserved unchanged, and a
pre-existing `@slidev/theme-default` entry is removed from
`devDependencies` only (one in `dependencies` is kept). -/
theorem initialize_manifest_contents (cfg : LectureEnvironmentConfig)
    (s : MState) (o : Oracle) (m : ParsedManifest)
    (hdir : s.disk.lectureDirExists = true)
    (hsl : s.disk.slidesMdExists = true)
    (hpk : s.disk.packageJson = some (PkgFile.doc m))
    (hw : o.writeOk = true)
    (hnd : ((m.devDependencies.getD []).map Prod.fst).Nodup) :
    (initializeEnv cfg s o).1.success = true ∧
    getKey (manifestDevDeps (initializeEnv cfg s o).2.disk) "@slidev/core" =
      some (resolvedVersion cfg s.disk) ∧
    getKey (manifestDeps (initializeEnv cfg s o).2.disk) "@slidev/client" =
      some (resolvedVersion cfg s.disk) ∧
    (∀ k, k ≠ "@slidev/client" →
      getKey (manifestDeps (initializeEnv cfg s o).2.disk) k =
        getKey (m.dependencies.getD []) k) ∧
    (∀ k, k ≠ "@slidev/core" → k ≠ "@slidev/theme-default" →
      getKey (manifestDevDeps (initializeEnv cfg s o).2.disk) k =
        getKey (m.devDependencies.getD []) k) ∧
    getKey (manifestDevDeps (initializeEnv cfg s o).2.disk)
      "@slidev/theme-default" = none := by
  have hsucc : (initializeEnv cfg s o).1.success = true := by
    simp [initializeEnv, ensurePackageJson, readManifestInfo, hdir, hsl,
          hpk, hw]
  have hdisk : (initializeEnv cfg s o).2.disk.packageJson =
      some (PkgFile.doc (toParsed
        (buildPackageJson cfg m (resolvedVersion cfg s.disk)))) := by
    simp [initializeEnv, ensurePackageJson, readManifestInfo, hdir, hsl,
          hpk, hw]
  have hdd : manifestDevDeps (initializeEnv cfg s o).2.disk =
      delKey (setKey (m.devDependencies.getD []) "@slidev/core"
        (resolvedVersion cfg s.disk)) "@slidev/theme-default" := by
    simp [manifestDevDeps, hdisk, toParsed, buildPackageJson]
  have hd : manifestDeps (initializeEnv cfg s o).2.disk =
      setKey (m.dependencies.getD []) "@slidev/client"
        (resolvedVersion cfg s.disk) := by
    simp [manifestDeps, hdisk, toParsed, buildPackageJson]
  refine ⟨hsucc, ?_, ?_, ?_, ?_, ?_⟩
  · rw [hdd, getKey_delKey_ne _ _ _ (by decide), getKey_setKey_self]
  · rw [hd, getKey_setKey_self]
  · intro k hk
    rw [hd, getKey_setKey_ne _ _ _ _ hk]
  · intro k hk1 hk2
    rw [hdd, getKey_delKey_ne _ _ _ hk2, getKey_setKey_ne _ _ _ _ hk1]
  · rw [hdd]
    apply getKey_delKey_self_of_count
    rw [countKey_setKey_ne _ _ _ _ (by decide)]
    exact countKey_le_one_of_nodup _ _ hnd

/-- A pre-existing manifest with an unrelated dependency `foo`, a stale
`@slidev/theme-default` entry in `devDependencies`, and a prior
`@slidev/core` version. -/
def m4 : ParsedManifest :=
  { ParsedManifest.empty with
      dependencies := some [("foo", "1.0.0")]
      devDependencies := some [("@slidev/core", "^0.47.0"),
                               ("@slidev/theme-default", "2.0.0")] }

/-- The fresh lecture directory holding `m4` as its manifest. -/
def stM4 : MState :=
  { stFresh with
      disk := { diskFresh with packageJson := some (PkgFile.doc m4) } }

/-- Witness for the corrected C4: `foo` is preserved, `@slidev/core` and
`@slidev/client` carry the prior version `^0.47.0`, and the stale
`devDependencies` theme entry is gone. -/
theorem initialize_manifest_contents_witness :
    resolvedVersion cfg0 stM4.disk = "^0.47.0" ∧
    (initializeEnv cfg0 stM4 o0).1.success = true ∧
    getKey (manifestDevDeps (initializeEnv cfg0 stM4 o0).2.disk)
      "@slidev/core" = some (resolvedVersion cfg0 stM4.disk) ∧
    getKey (manifestDeps (initializeEnv cfg0 stM4 o0).2.disk)
      "@slidev/client" = some (resolvedVersion cfg0 stM4.disk) ∧
    getKey (manifestDeps (initializeEnv cfg0 stM4 o0).2.disk) "foo" =
      getKey (m4.dependencies.getD []) "foo" ∧
    getKey (manifestDevDeps (initializeEnv cfg0 stM4 o0).2.disk)
      "@slidev/theme-default" = none :=
  ⟨by decide,
   (initialize_manifest_contents cfg0 stM4 o0 m4 rfl rfl rfl rfl (by decide)).1,
   (initialize_manifest_contents cfg0 stM4 o0 m4 rfl rfl rfl rfl (by decide)).2.1,
   (initialize_manifest_contents cfg0 stM4 o0 m4 rfl rfl rfl rfl (by decide)).2.2.1,
   (initialize_manifest_contents cfg0 stM4 o0 m4 rfl rfl rfl rfl
     (by decide)).2.2.2.1 "foo" (by decide),
   (initialize_manifest_contents cfg0 stM4 o0 m4 rfl rfl rfl rfl
     (by decide)).2.2.2.2.2⟩

/-- Counterexample to claim C6 as stated: after the streaming variant
(`buildLectureWithOutput`) exits with code 0 and the `dist` directory is
absent, the result is `success = true` with `outputPath` unset but carries
no warning message at all (and never lists directory contents) — the
warning and the contents listing exist only in the buffered variant. -/
theorem buildWithOutput_no_warning_counterexample :
    stReady.disk.dist = none ∧
    (buildLectureWithOutput cfg0 stReady o0).1.success = true ∧
    (buildLectureWithOutput cfg0 stReady o0).1.outputPath = none ∧
    (buildLectureWithOutput cfg0 stReady o0).1.messages =
      ["Building lecture: l1", "Running: npm run build",
       "Build completed successfully"] ∧
    "Warning: dist directory not found after build" ∉
      (buildLectureWithOutput cfg0 stReady o0).1.messages ∧
    "Warning: dist directory is empty" ∉
      (buildLectureWithOutput cfg0 stReady o0).1.messages := by
  decide

/-- Claim C6 (corrected).  After a successful build both variants report
`success = true` regardless of the `dist` state, and set `outputPath` exactly
when `dist` exists non-empty; but only the buffered `buildLecture` adds the
warning message (absent/empty `dist`) and the contents listing (non-empty
`dist`) — the streaming `buildLectureWithOutput` adds at most a
`Build output:` line and no warning. -/
theorem build_output_probe (cfg : LectureEnvironmentConfig) (s : MState)
    (o : Oracle)
    (hr : s.environment.status = EnvironmentStatus.ready)
    (hn : s.disk.nodeModulesExists = true)
    (hb : o.buildExecOk = true)
    (hs : o.streamOutcome = StreamOutcome.closed 0) :
    (buildLecture cfg s o).1.success = true ∧
    (buildLectureWithOutput cfg s o).1.success = true ∧
    (s.disk.dist = none →
      (buildLecture cfg s o).1.outputPath = none ∧
      "Warning: dist directory not found after build" ∈
        (buildLecture cfg s o).1.messages ∧
      (buildLectureWithOutput cfg s o).1.outputPath = none ∧
      (buildLectureWithOutput cfg s o).1.messages =
        ["Building lecture: " ++ cfg.lectureId,
         "Running: " ++ detectPackageManager o ++ " " ++
           String.intercalate " " (buildArgsFor cfg o)] ++
        o.stdoutLines.map (fun l => "[info] " ++ l) ++
        ["Build completed successfully"]) ∧
    (s.disk.dist = some [] →
      (buildLecture cfg s o).1.outputPath = none ∧
      "Warning: dist directory is empty" ∈ (buildLecture cfg s o).1.messages ∧
      (buildLectureWithOutput cfg s o).1.outputPath = none ∧
      (buildLectureWithOutput cfg s o).1.messages =
        ["Building lecture: " ++ cfg.lectureId,
         "Running: " ++ detectPackageManager o ++ " " ++
           String.intercalate " " (buildArgsFor cfg o)] ++
        o.stdoutLines.map (fun l => "[info] " ++ l) ++
        ["Build completed successfully"]) ∧
    (∀ x xs, s.disk.dist = some (x :: xs) →
      (buildLecture cfg s o).1.outputPath =
        some (s.environment.lecturePath ++ "/dist") ∧
      ("Output files: " ++ String.intercalate ", " (x :: xs)) ∈
        (buildLecture cfg s o).1.messages ∧
      (buildLectureWithOutput cfg s o).1.outputPath =
        some (s.environment.lecturePath ++ "/dist") ∧
      ("Build output: " ++ (s.environment.lecturePath ++ "/dist")) ∈
        (buildLectureWithOutput cfg s o).1.messages) := by
  refine ⟨?_, ?_, ?_, ?_, ?_⟩
  · simp [buildLecture, buildExecPhase, hr, hn, hb]
  · simp [buildLectureWithOutput, buildStreamPhase, hr, hn, hs]
  · intro h
    refine ⟨?_, ?_, ?_, ?_⟩ <;>
      simp [buildLecture, buildExecPhase, buildLectureWithOutput,
            buildStreamPhase, hr, hn, hb, hs, h]
  · intro h
    refine ⟨?_, ?_, ?_, ?_⟩ <;>
      simp [buildLecture, buildExecPhase, buildLectureWithOutput,
            buildStreamPhase, hr, hn, hb, hs, h]
  · intro x xs h
    refine ⟨?_, ?_, ?_, ?_⟩ <;>
      simp [buildLecture, buildExecPhase, buildLectureWithOutput,
            buildStreamPhase, hr, hn, hb, hs, h]

/-- Witness for the corrected C6 at the absent-`dist` fixture. -/
theorem build_output_probe_witness :
    (buildLecture cfg0 stReady o0).1.success = true ∧
    (buildLecture cfg0 stReady o0).1.outputPath = none ∧
    "Warning: dist directory not found after build" ∈
      (buildLecture cfg0 stReady o0).1.messages ∧
    (buildLectureWithOutput cfg0 stReady o0).1.outputPath = none :=
  ⟨(build_output_probe cfg0 stReady o0 rfl rfl rfl rfl).1,
   ((build_output_probe cfg0 stReady o0 rfl rfl rfl rfl).2.2.1 rfl).1,
   ((build_output_probe cfg0 stReady o0 rfl rfl rfl rfl).2.2.1 rfl).2.1,
   ((build_output_probe cfg0 stReady o0 rfl rfl rfl rfl).2.2.1 rfl).2.2.1⟩

/-- The default dev-server configuration, but with an explicit port 0. -/
def devCfgPort0 : DevServerConfig := { devCfg0 with port := some 0 }

/-- Counterexample to claim C1 as stated: with configured port `P = 0` the
resolution `config.port || 3030` treats `0` as unspecified (JS falsiness),
so the successful call reports `http://localhost:3030`, not
`"http://H:P" = "http://localhost:0"`. -/
theorem startDevServer_port_zero_counterexample :
    (startDevServer cfg0 devCfgPort0 stReady o0).1.success = true ∧
    (startDevServer cfg0 devCfgPort0 stReady o0).1.url =
      some "http://localhost:3030" ∧
    (startDevServer cfg0 devCfgPort0 stReady o0).1.url ≠
      some "http://localhost:0" := by
  decide

/-- Claim C1 (corrected).  On a ready environment with `node_modules`
present, with resolved port `P` (`config.port`, except 3030 when absent or
0) and resolved host `H` (`config.host`, except `"localhost"` when absent or
empty): whenever the readiness probe connected, or it failed with the
process not exited or exited with code 0 (soft success), the result is
`success = true` with `url = "http://H:P"` and `processId` the spawned pid;
the call fails exactly when readiness failed and the process exited with a
non-zero code. -/
theorem startDevServer_url_outcome (cfg : LectureEnvironmentConfig)
    (config : DevServerConfig) (s : MState) (o : Oracle)
    (hr : s.environment.status = EnvironmentStatus.ready)
    (hn : s.disk.nodeModulesExists = true) :
    ((o.readinessConnected = true ∨ o.exitAfterWait = none ∨
        o.exitAfterWait = some 0) →
      (startDevServer cfg config s o).1.success = true ∧
      (startDevServer cfg config s o).1.url =
        some ("http://" ++ ((jsOrS config.host (some "localhost")).getD "localhost")
              ++ ":" ++ toString (jsOrNat config.port 3030)) ∧
      (startDevServer cfg config s o).1.processId = some o.spawnPid) ∧
    (∀ c : Int, o.readinessConnected = false → o.exitAfterWait = some c →
      c ≠ 0 →
      (startDevServer cfg config s o).1.success = false ∧
      (startDevServer cfg config s o).1.url = none ∧
      (startDevServer cfg config s o).1.processId = none) := by
  constructor
  · intro h
    rcases h with hc | he | he
    · refine ⟨?_, ?_, ?_⟩ <;>
        simp [startDevServer, startDevSpawnPhase, waitForServerStart,
              hr, hn, hc]
    · cases hc : o.readinessConnected <;>
        · refine ⟨?_, ?_, ?_⟩ <;>
            simp [startDevServer, startDevSpawnPhase, waitForServerStart,
                  hr, hn, hc, he]
    · cases hc : o.readinessConnected <;>
        · refine ⟨?_, ?_, ?_⟩ <;>
            simp [startDevServer, startDevSpawnPhase, waitForServerStart,
                  hr, hn, hc, he]
  · intro c hc he hne
    refine ⟨?_, ?_, ?_⟩ <;>
      simp [startDevServer, startDevSpawnPhase, waitForServerStart,
            hr, hn, hc, he, hne]

/-- Witness for the corrected C1: defaults resolve to port 3030 and host
localhost and the readiness-connected call succeeds. -/
theorem startDevServer_url_outcome_witness :
    ("http://" ++ ((jsOrS devCfg0.host (some "localhost")).getD "localhost")
       ++ ":" ++ toString (jsOrNat devCfg0.port 3030)) = "http://localhost:3030" ∧
    (startDevServer cfg0 devCfg0 stReady o0).1.success = true ∧
    (startDevServer cfg0 devCfg0 stReady o0).1.url =
      some ("http://" ++ ((jsOrS devCfg0.host (some "localhost")).getD "localhost")
            ++ ":" ++ toString (jsOrNat devCfg0.port 3030)) ∧
    (startDevServer cfg0 devCfg0 stReady o0).1.processId = some 101 :=
  ⟨by decide,
   ((startDevServer_url_outcome cfg0 devCfg0 stReady o0 rfl rfl).1
     (Or.inl rfl)).1,
   ((startDevServer_url_outcome cfg0 devCfg0 stReady o0 rfl rfl).1
     (Or.inl rfl)).2.1,
   ((startDevServer_url_outcome cfg0 devCfg0 stReady o0 rfl rfl).1
     (Or.inl rfl)).2.2⟩

/-- On the success path (ready, dependencies present, readiness connected),
`startDevServer` leaves environment and disk untouched, its registry is the
prior registry with the dev server first stopped and the new process record
bound to the dev key, and its effect trace is the stop's kill attempts
followed by the spawn. -/
theorem startDevServer_ready_spawn (cfg : LectureEnvironmentConfig)
    (config : DevServerConfig) (s : MState) (o : Oracle)
    (hr : s.environment.status = EnvironmentStatus.ready)
    (hn : s.disk.nodeModulesExists = true)
    (hc : o.readinessConnected = true) :
    (startDevServer cfg config s o).1.success = true ∧
    (startDevServer cfg config s o).2.1.environment = s.environment ∧
    (startDevServer cfg config s o).2.1.disk = s.disk ∧
    (startDevServer cfg config s o).2.1.activeProcesses =
      setKey (stopDevServer cfg s o).2.1.activeProcesses (devKey cfg)
        { pid := o.spawnPid, type := ProcKind.dev, lectureId := cfg.lectureId,
          killed := false, exitCode := none, startTime := o.now } ∧
    (startDevServer cfg config s o).2.2 =
      (stopDevServer cfg s o).2.2 ++ [Eff.spawnDev o.spawnPid] := by
  obtain ⟨he, hd⟩ := stopDevServer_env_disk cfg s o
  refine ⟨?_, ?_, ?_, ?_, ?_⟩ <;>
    simp [startDevServer, startDevSpawnPhase, waitForServerStart,
          hr, hn, hc, he, hd]

/-- Claim C5 (confirmed).  Starting from a registry binding the dev key at
most once, two consecutive successful `startDevServer` calls each leave the
dev key bound exactly once; after the second call the single tracked record
is the second spawned process, and the second call's effect trace shows the
first process's kill attempt strictly before the second spawn. -/
theorem startDevServer_twice_single_entry (cfg : LectureEnvironmentConfig)
    (c1 c2 : DevServerConfig) (s : MState) (o1 o2 : Oracle)
    (hr : s.environment.status = EnvironmentStatus.ready)
    (hn : s.disk.nodeModulesExists = true)
    (hcount : countKey s.activeProcesses (devKey cfg) ≤ 1)
    (h1 : o1.readinessConnected = true)
    (h2 : o2.readinessConnected = true) :
    (startDevServer cfg c1 s o1).1.success = true ∧
    countKey (startDevServer cfg c1 s o1).2.1.activeProcesses (devKey cfg) = 1 ∧
    (startDevServer cfg c2 (startDevServer cfg c1 s o1).2.1 o2).1.success = true ∧
    countKey (startDevServer cfg c2 (startDevServer cfg c1 s o1).2.1 o2).2.1.activeProcesses
      (devKey cfg) = 1 ∧
    getKey (startDevServer cfg c2 (startDevServer cfg c1 s o1).2.1 o2).2.1.activeProcesses
      (devKey cfg) =
      some { pid := o2.spawnPid, type := ProcKind.dev, lectureId := cfg.lectureId,
             killed := false, exitCode := none, startTime := o2.now } ∧
    (startDevServer cfg c2 (startDevServer cfg c1 s o1).2.1 o2).2.2 =
      killEffects { pid := o1.spawnPid, type := ProcKind.dev,
                    lectureId := cfg.lectureId, killed := false,
                    exitCode := none, startTime := o1.now } o2 ++
      [Eff.spawnDev o2.spawnPid] := by
  obtain ⟨hs1succ, hs1env, hs1disk, hs1reg, _⟩ :=
    startDevServer_ready_spawn cfg c1 s o1 hr hn h1
  have hcount1 :
      countKey (startDevServer cfg c1 s o1).2.1.activeProcesses (devKey cfg) = 1 := by
    rw [hs1reg]
    exact countKey_setKey_of_zero _ _ _ (countKey_stop_registry cfg s o1 hcount)
  have hr1 : (startDevServer cfg c1 s o1).2.1.environment.status =
      EnvironmentStatus.ready := by rw [hs1env]; exact hr
  have hn1 : (startDevServer cfg c1 s o1).2.1.disk.nodeModulesExists = true := by
    rw [hs1disk]; exact hn
  obtain ⟨hs2succ, _, _, hs2reg, hs2effs⟩ :=
    startDevServer_ready_spawn cfg c2 (startDevServer cfg c1 s o1).2.1 o2 hr1 hn1 h2
  have hget1 : getKey (startDevServer cfg c1 s o1).2.1.activeProcesses (devKey cfg) =
      some { pid := o1.spawnPid, type := ProcKind.dev, lectureId := cfg.lectureId,
             killed := false, exitCode := none, startTime := o1.now } := by
    rw [hs1reg]; exact getKey_setKey_self _ _ _
  refine ⟨hs1succ, hcount1, hs2succ, ?_, ?_, ?_⟩
  · rw [hs2reg]
    exact countKey_setKey_of_zero _ _ _
      (countKey_stop_registry cfg _ o2 (le_of_eq hcount1))
  · rw [hs2reg]
    exact getKey_setKey_self _ _ _
  · rw [hs2effs]
    have : (stopDevServer cfg (startDevServer cfg c1 s o1).2.1 o2).2.2 =
        killEffects { pid := o1.spawnPid, type := ProcKind.dev,
                      lectureId := cfg.lectureId, killed := false,
                      exitCode := none, startTime := o1.now } o2 := by
      simp [stopDevServer, hget1]
    rw [this]

/-- A second oracle spawning pid 202. -/
def o2w : Oracle := { o0 with spawnPid := 202, now := 9 }

/-- Witness for C5: two consecutive starts on the ready fixture leave one
tracked record, the second spawn (pid 202), and the second trace is
`SIGTERM` of pid 101 followed by the spawn of pid 202. -/
theorem startDevServer_twice_single_entry_witness :
    countKey (startDevServer cfg0 devCfg0 stReady o0).2.1.activeProcesses
      (devKey cfg0) = 1 ∧
    countKey (startDevServer cfg0 devCfg0
        (startDevServer cfg0 devCfg0 stReady o0).2.1 o2w).2.1.activeProcesses
      (devKey cfg0) = 1 ∧
    getKey (startDevServer cfg0 devCfg0
        (startDevServer cfg0 devCfg0 stReady o0).2.1 o2w).2.1.activeProcesses
      (devKey cfg0) =
      some { pid := 202, type := ProcKind.dev, lectureId := "l1",
             killed := false, exitCode := none, startTime := 9 } ∧
    (startDevServer cfg0 devCfg0
        (startDevServer cfg0 devCfg0 stReady o0).2.1 o2w).2.2 =
      [Eff.sigterm 101, Eff.spawnDev 202] :=
  ⟨(startDevServer_twice_single_entry cfg0 devCfg0 devCfg0 stReady o0 o2w
      rfl rfl (by decide) rfl rfl).2.1,
   (startDevServer_twice_single_entry cfg0 devCfg0 devCfg0 stReady o0 o2w
      rfl rfl (by decide) rfl rfl).2.2.2.1,
   (startDevServer_twice_single_entry cfg0 devCfg0 devCfg0 stReady o0 o2w
      rfl rfl (by decide) rfl rfl).2.2.2.2.1,
   (startDevServer_twice_single_entry cfg0 devCfg0 devCfg0 stReady o0 o2w
      rfl rfl (by decide) rfl rfl).2.2.2.2.2⟩

end SlidevEnv
